import Mathlib

/-!
Verification development for the weather-app V3 repository core: the METAR
report decoder (metar_parser_V3.py), the batch splitter inlined in
app_V3.py (page_metar), and the rain-event segmenter / summarizer
(rain_analysis_V3.py).

Modelling conventions.
A normalized METAR report (the source collapses all whitespace runs to single
spaces before scanning) is represented by its list of whitespace-delimited
tokens.  Every regular-expression scan of the source is anchored on word
boundaries; over normalized reports whose tokens consist of word characters,
word boundaries coincide with token edges, so the scans are modelled as
left-to-right scans over whole tokens.  Python float rounding of x * 1.944,
x * 0.3048 and similar products is modelled as exact rational rounding to the
nearest integer realised by Nat arithmetic; the products involved can never be
exact halves (shown by a parity argument), so round-half-to-even and
round-half-up agree and floating error cannot move the result.
-/

namespace Metar

/-- Numeric value of a digit list, most significant digit first
(Python int() on a digit string). -/
def natOfDigits (cs : List Char) : Nat :=
  cs.foldl (fun n c => n * 10 + (c.toNat - 48)) 0

/-- Leading maximal digit run of a character list, with the remainder. -/
def splitDigits : List Char → List Char × List Char
  | [] => ([], [])
  | c :: cs =>
      if c.isDigit then
        let p := splitDigits cs
        (c :: p.1, p.2)
      else ([], c :: cs)

/-- A token consisting of exactly four digits (the \b[0-9]{4}\b shapes). -/
def is4Digits (t : String) : Bool :=
  t.data.length == 4 && t.data.all Char.isDigit

/-- Numeric value of a token. -/
def tokNat (t : String) : Nat := natOfDigits t.data

/-! ## Wind (metar_parser_V3.py lines 68-87)

Regex `\b(VRB|\d{3})(\d{2,3})(?:G(\d{2,3}))?(KT|MPS)\b`; for a non-VRB
direction the direction and speed groups together consume a maximal digit run
of length 5 or 6 (3 for the direction, the remaining 2 or 3 for the speed). -/

/-- Raw captured groups of the wind token regex. -/
structure WindTok where
  dir : Option Nat
  speed : Nat
  gust : Option Nat
  unit : String
deriving DecidableEq

def windUnitPart (d : Option Nat) (s : Nat) (g : Option Nat) : List Char → Option WindTok
  | ['K', 'T'] => some ⟨d, s, g, "KT"⟩
  | ['M', 'P', 'S'] => some ⟨d, s, g, "MPS"⟩
  | _ => none

def windGustPart (d : Option Nat) (s : Nat) : List Char → Option WindTok
  | 'G' :: r =>
      if (splitDigits r).1.length == 2 || (splitDigits r).1.length == 3 then
        windUnitPart d s (some (natOfDigits (splitDigits r).1)) (splitDigits r).2
      else none
  | r => windUnitPart d s none r

def windSpeedPart (d : Option Nat) (r : List Char) : Option WindTok :=
  if (splitDigits r).1.length == 2 || (splitDigits r).1.length == 3 then
    windGustPart d (natOfDigits (splitDigits r).1) (splitDigits r).2
  else none

/-- Whole-token match of the wind regex. -/
def parseWindToken (t : String) : Option WindTok :=
  match t.data with
  | 'V' :: 'R' :: 'B' :: r => windSpeedPart none r
  | cs =>
      if (splitDigits cs).1.length == 5 || (splitDigits cs).1.length == 6 then
        windGustPart (some (natOfDigits ((splitDigits cs).1.take 3)))
          (natOfDigits ((splitDigits cs).1.drop 3)) (splitDigits cs).2
      else none

/-- round(speed * 1.944): m/s to knots, nearest integer
(the exact product can never be a half, so the tie policy is immaterial). -/
def mpsToKt (s : Nat) : Nat := (s * 1944 + 500) / 1000

/-- wind_direction, wind_speed, wind_gust of the decoded record. -/
def windFields (ts : List String) : Option Nat × Option Nat × Option Nat :=
  match ts.findSome? parseWindToken with
  | none => (none, none, none)
  | some w =>
      let sp := if w.unit = "MPS" then mpsToKt w.speed else w.speed
      let gu := w.gust.map (fun g => if w.unit = "MPS" then mpsToKt g else g)
      (w.dir, some sp, gu)

/-! ## Cloud layers (metar_parser_V3.py lines 147-181) -/

/-- One entry of the clouds list; height_ft and ctype model the optional
dictionary keys of the source (absent for the clear-sky pseudo layer). -/
structure Cloud where
  amount : String
  height_m : Nat
  height_ft : Option Nat
  description : String
  ctype : Option String
deriving DecidableEq

/-- round(ft * 0.3048): feet to meters, nearest integer. -/
def ftToM (ft : Nat) : Nat := (ft * 3048 + 5000) / 10000

def amountDesc (a : String) : String :=
  if a = "FEW" then "少云(1-2/8)"
  else if a = "SCT" then "疏云(3-4/8)"
  else if a = "BKN" then "多云(5-7/8)"
  else if a = "OVC" then "阴天(8/8)"
  else a

def cloudTypePart : List Char → Option (Option String)
  | [] => some none
  | ['C', 'B'] => some (some "积雨云")
  | ['T', 'C', 'U'] => some (some "浓积云")
  | _ => none

def cloudAmtPart : List Char → Option (String × List Char)
  | 'F' :: 'E' :: 'W' :: r => some ("FEW", r)
  | 'S' :: 'C' :: 'T' :: r => some ("SCT", r)
  | 'B' :: 'K' :: 'N' :: r => some ("BKN", r)
  | 'O' :: 'V' :: 'C' :: r => some ("OVC", r)
  | _ => none

/-- Whole-token match of `\b(FEW|SCT|BKN|OVC)(\d{3})(CB|TCU)?\b`. -/
def parseCloud (t : String) : Option Cloud :=
  match cloudAmtPart t.data with
  | none => none
  | some (a, r) =>
      let p := splitDigits r
      if p.1.length == 3 then
        match cloudTypePart p.2 with
        | none => none
        | some c =>
            let ft := natOfDigits p.1 * 100
            some ⟨a, ftToM ft, some ft, amountDesc a, c⟩
      else none

/-- The synthetic clear-sky pseudo layer appended for SKC/CLR/NSC/NCD. -/
def skcCloud : Cloud := ⟨"SKC", 0, none, "天空无云", none⟩

def hasClearSky (ts : List String) : Bool :=
  ts.any (fun t => t = "SKC" || t = "CLR" || t = "NSC" || t = "NCD")

/-- The clouds list: the clear-sky branch and the coded-layer branch are an
if/else in the source — they are mutually exclusive. -/
def cloudsOf (ts : List String) : List Cloud :=
  if hasClearSky ts then [skcCloud] else ts.filterMap parseCloud

/-! ## Temperature / dewpoint (metar_parser_V3.py lines 124-132)

Regex `\b(M?\d{2})/(M?\d{2})\b(?=.*(?:Q\d{4}|A\d{4}|$))`; the lookahead has a
`.*$` branch and is therefore always satisfied. -/

def signedTemp : List Char → Option (Int × List Char)
  | 'M' :: rest =>
      match rest with
      | a :: b :: r =>
          if a.isDigit && b.isDigit then some (-(natOfDigits [a, b] : Int), r) else none
      | _ => none
  | a :: b :: r =>
      if a.isDigit && b.isDigit then some ((natOfDigits [a, b] : Int), r) else none
  | _ => none

def parseTempToken (t : String) : Option (Int × Int) :=
  match signedTemp t.data with
  | some (temp, '/' :: rest) =>
      match signedTemp rest with
      | some (dew, []) => some (temp, dew)
      | _ => none
  | _ => none

/-- Both temperature and dewpoint come from the single first matching token. -/
def tempDew (ts : List String) : Option (Int × Int) :=
  ts.findSome? parseTempToken

/-! ## Visibility (metar_parser_V3.py lines 94-122) -/

def hasCavok (ts : List String) : Bool := ts.contains "CAVOK"

/-- Prefix shape `M?\d{2}/` of the lookahead. -/
def tempSlashPrefix : List Char → Bool
  | 'M' :: a :: b :: '/' :: _ => a.isDigit && b.isDigit
  | a :: b :: '/' :: _ => a.isDigit && b.isDigit
  | _ => false

/-- Lookahead `(?=\s+(?:[A-Z+\-]|FEW|SCT|BKN|OVC|SKC|CLR|NSC|M?\d{2}/|$))` on
the following token (the named cloud codes are subsumed by `[A-Z]`; the `$`
alternative is unreachable because normalized text has no trailing blank). -/
def visNextOk (t : String) : Bool :=
  match t.data with
  | [] => false
  | c :: _ => c.isUpper || c == '+' || c == '-' || tempSlashPrefix t.data

/-- First 4-digit token whose successor token satisfies the lookahead. -/
def findVisToken : List String → Option Nat
  | t :: n :: rest =>
      if is4Digits t && visNextOk n then some (tokNat t)
      else findVisToken (n :: rest)
  | _ => none

/-- The visibility description buckets of the source. -/
def visDescOf (v : Nat) : String :=
  if v = 9999 then "10公里或以上"
  else if 5000 ≤ v then "良好"
  else if 3000 ≤ v then "中等"
  else if 1000 ≤ v then "较差"
  else "很差"

/-- visibility and visibility_description: CAVOK branch, positional pass with
the 1010/1013 exclusion, then the unconditional standalone-9999 pass. -/
def visibilityFields (ts : List String) : Option Nat × Option String :=
  if hasCavok ts then (none, some "CAVOK - 天气晴好")
  else
    let p1 : Option Nat × Option String :=
      match findVisToken ts with
      | some v =>
          if v ≠ 1010 ∧ v ≠ 1013 then (some v, some (visDescOf v)) else (none, none)
      | none => (none, none)
    if ts.contains "9999" then (some 9999, some "10公里或以上") else p1

/-! ## The decoded record (parse_metar) -/

/-- The fields of the result dictionary of parse_metar that carry the logic
the claims are about (station, time, pressure and the phenomena table are
independent passes not involved in any claim). -/
structure Observation where
  raw : List String
  cavok : Bool
  wind_direction : Option Nat
  wind_speed : Option Nat
  wind_gust : Option Nat
  visibility : Option Nat
  visibility_description : Option String
  temperature : Option Int
  dewpoint : Option Int
  clouds : List Cloud
deriving DecidableEq

/-- parse_metar on a normalized (tokenized) report. -/
def parse_metar (ts : List String) : Observation :=
  let w := windFields ts
  let v := visibilityFields ts
  let td := tempDew ts
  { raw := ts
    cavok := hasCavok ts
    wind_direction := w.1
    wind_speed := w.2.1
    wind_gust := w.2.2
    visibility := v.1
    visibility_description := v.2
    temperature := td.map Prod.fst
    dewpoint := td.map Prod.snd
    clouds := cloudsOf ts }

/-! ## Batch splitter (app_V3.py, page_metar lines 82-99)

The splitter works on raw character data; the string helpers below model
Python str.strip, str.split() and "=".split exactly over the character list
underlying a Lean String. -/

/-- Python str.strip(). -/
def pyStrip (cs : List Char) : List Char :=
  ((cs.dropWhile Char.isWhitespace).reverse.dropWhile Char.isWhitespace).reverse

/-- Split a character list on a separator character, keeping empty groups
(Python str.split(sep)). -/
def splitCharOn (sep : Char) (cs : List Char) : List (List Char) :=
  cs.foldr
    (fun c acc =>
      match acc with
      | g :: gs => if c = sep then [] :: g :: gs else (c :: g) :: gs
      | [] => [[c]])
    [[]]

/-- Split on a predicate, keeping empty groups. -/
def splitWhen (p : Char → Bool) (cs : List Char) : List (List Char) :=
  cs.foldr
    (fun c acc =>
      match acc with
      | g :: gs => if p c then [] :: g :: gs else (c :: g) :: gs
      | [] => [[c]])
    [[]]

/-- Python str.split() with no argument: split on whitespace runs, no empty
pieces. -/
def pySplit (s : String) : List String :=
  ((splitWhen Char.isWhitespace s.data).filter (fun g => g ≠ [])).map String.mk

/-- Python " ".join(ws). -/
def joinSpace : List String → String
  | [] => ""
  | [w] => w
  | w :: ws => w ++ " " ++ joinSpace ws

/-- Normalization of one '='-separated segment: strip, drop if empty,
collapse inner whitespace (the body of the for loop of page_metar). -/
def segOut (p : List Char) : Option String :=
  let ws := pySplit (String.mk p)
  if ws = [] then none else some (joinSpace ws)

/-- The batch splitter of page_metar: strip the block, return nothing when it
is empty, otherwise split on '=' and normalize each non-blank segment in
order. -/
def splitReports (raw : String) : List String :=
  let text := String.mk (pyStrip raw.data)
  if text = "" then []
  else
    (splitCharOn '=' text.data).foldl
      (fun acc p =>
        match segOut p with
        | none => acc
        | some r => acc ++ [r])
      []

/-- A 6-digit-and-Z receipt time group such as 210326Z. -/
def isReceiptTime (t : String) : Bool :=
  match t.data with
  | [a, b, c, d, e, f, 'Z'] =>
      a.isDigit && b.isDigit && c.isDigit && d.isDigit && e.isDigit && f.isDigit
  | _ => false

/-- Drop a leading receipt-stamp prefix (a transmission marker plus its own
6-digit-and-Z time group) when one precedes the METAR/SPECI keyword. -/
def stripReceipt (ws : List String) : List String :=
  match ws.findIdx? (fun t => t = "METAR" || t = "SPECI") with
  | some i => if 0 < i ∧ (ws.take i).any isReceiptTime then ws.drop i else ws
  | none => ws

/-- Split on blank-line boundaries, modelled as a pair of consecutive
newline characters. -/
def splitNlNl : List Char → List (List Char)
  | '\n' :: '\n' :: rest => [] :: splitNlNl rest
  | c :: rest =>
      match splitNlNl rest with
      | g :: gs => (c :: g) :: gs
      | [] => [[c]]
  | [] => [[]]

/-- Modelled from the spec: the batch splitter contract of section 4.1, which
is absent from the code (page_metar splits on '=' only and keeps receipt
stamps).  Splits on '=' terminators and blank-line boundaries (modelled as
two consecutive newline characters), collapses each segment's whitespace,
trims, drops empty segments, and strips a leading receipt-stamp prefix when
one precedes the METAR/SPECI keyword. -/
def specSplitReports (text : String) : List String :=
  ((splitCharOn '=' text.data).flatMap splitNlNl).foldr
    (fun p acc =>
      let ws := pySplit (String.mk p)
      if ws = [] then acc else joinSpace (stripReceipt ws) :: acc)
    []

/-! ## Rain-event segmentation (rain_analysis_V3.py) -/

/-- One precipitation sample: a timestamp in minutes and an intensity
category string (the 雨强 column). -/
structure Sample where
  time : Nat
  cat : String
deriving DecidableEq

/-- RAIN_LEVEL_MAP: the severity scale (dict lookup, none when absent). -/
def RAIN_LEVEL_MAP (c : String) : Option ℚ :=
  if c = "雨停" then some 0
  else if c = "毛毛雨" then some (1/2)
  else if c = "小雨" then some 1
  else if c = "中雨" then some 2
  else if c = "大雨" then some 3
  else if c = "暴雨" then some 4
  else if c = "雷阵雨" then some (7/2)
  else none

/-- Severity with the dict default (used only where definedness is known). -/
def levelD (r : Sample) : ℚ := (RAIN_LEVEL_MAP r.cat).getD 0

/-- Dict lookup RAIN_LEVEL_MAP[r]: a KeyError on an unknown category,
modelled as the error the specification names. -/
def levelOf (r : Sample) : Except String ℚ :=
  match RAIN_LEVEL_MAP r.cat with
  | some v => Except.ok v
  | none => Except.error "UnknownIntensityCategory"

/-- Sequential effectful map: stops at the first failing element (a Python
list comprehension that may raise). -/
def mapE (f : α → Except String β) : List α → Except String (List β)
  | [] => Except.ok []
  | x :: xs =>
      match f x with
      | Except.error e => Except.error e
      | Except.ok y =>
          match mapE f xs with
          | Except.error e => Except.error e
          | Except.ok ys => Except.ok (y :: ys)

/-- The buffer loop of analyze_rain_events: every sample is appended to the
open buffer; a 雨停 sample closes the episode; a trailing non-empty buffer is
emitted as a final open-ended episode. -/
def segmentGo : List Sample → List Sample → List (List Sample)
  | buf, [] => if buf = [] then [] else [buf]
  | buf, s :: rest =>
      if s.cat = "雨停" then (buf ++ [s]) :: segmentGo [] rest
      else segmentGo (buf ++ [s]) rest

def segmentRain (l : List Sample) : List (List Sample) := segmentGo [] l

/-- df.sort_values("时间"): ascending sort by timestamp. -/
def sortSamples (l : List Sample) : List Sample :=
  l.insertionSort (fun a b => a.time ≤ b.time)

/-- Python max() over a non-empty list. -/
def pyMax (x : ℚ) (xs : List ℚ) : ℚ := xs.foldl max x

/-- Python list.index: index of the first occurrence. -/
def pyIndex (x : ℚ) : List ℚ → Nat
  | [] => 0
  | y :: ys => if y = x then 0 else pyIndex x ys + 1

/-- The semantic payload of one formatted episode: start and end clock
times, duration in whole minutes, the chronological intensity sequence and
the peak label. -/
structure RainEvent where
  startT : Nat
  endT : Nat
  durationMin : Nat
  seq : List String
  peak : String
deriving DecidableEq

/-- format_event: severities first (the dict lookups raise on an unknown
category before anything else is touched), then the summary values; an empty
record list would fail on times[0]. -/
def format_event (records : List Sample) : Except String RainEvent :=
  match mapE levelOf records with
  | Except.error e => Except.error e
  | Except.ok strengths =>
      match records, strengths with
      | r0 :: rs, s0 :: ss =>
          let rains := (r0 :: rs).map Sample.cat
          let mx := pyMax s0 ss
          let idx := pyIndex mx (s0 :: ss)
          Except.ok
            { startT := r0.time
              endT := (rs.getLastD r0).time
              durationMin := (rs.getLastD r0).time - r0.time
              seq := rains
              peak := rains.getD idx "" }
      | _, _ => Except.error "IndexError"

/-- analyze_rain_events: sort, segment, then format every episode. -/
def analyze_rain_events (samples : List Sample) : Except String (List RainEvent) :=
  mapE format_event (segmentRain (sortSamples samples))

/-- Whether an Except value is a success. -/
def exceptOk : Except String α → Bool
  | Except.ok _ => true
  | Except.error _ => false

/-- The seven visibility buckets named by claim C5 (spec section 4.2). -/
inductive VisBucket
  | tenKm
  | veryGood
  | good
  | moderate
  | poor
  | bad
  | veryBad
deriving DecidableEq

/-- Modelled from the spec: the bucket chooser with the claimed fixed
thresholds 9999, 8000, 5000, 3000, 1500, 800, which is absent from the code
(the source uses 9999, 5000, 3000, 1000). -/
def specVisBucket (v : Nat) : VisBucket :=
  if v = 9999 then VisBucket.tenKm
  else if 8000 ≤ v then VisBucket.veryGood
  else if 5000 ≤ v then VisBucket.good
  else if 3000 ≤ v then VisBucket.moderate
  else if 1500 ≤ v then VisBucket.poor
  else if 800 ≤ v then VisBucket.bad
  else VisBucket.veryBad

/-- Claim C5 as stated: the description labels of the source realise exactly
the seven claimed buckets — distinct labels for distinct buckets, assigned
through the claimed thresholds. -/
def c5Claim : Prop :=
  ∃ L : VisBucket → String,
    Function.Injective L ∧ ∀ v : Nat, visDescOf v = L (specVisBucket v)

/-! ## Helper lemmas -/

lemma splitReports_eq (raw : String) :
    splitReports raw = (splitCharOn '=' (pyStrip raw.data)).filterMap segOut := by
  have hfold : ∀ (l : List (List Char)) (acc : List String),
      l.foldl (fun a p => match segOut p with | none => a | some r => a ++ [r]) acc
        = acc ++ l.filterMap segOut := by
    intro l
    induction l with
    | nil => intro acc; simp
    | cons p l ih =>
        intro acc
        rw [List.foldl_cons, List.filterMap_cons]
        cases hp : segOut p with
        | none => simp only [hp]; exact ih acc
        | some r => simp only [hp]; rw [ih (acc ++ [r]), List.append_assoc]; rfl
  unfold splitReports
  by_cases h : String.mk (pyStrip raw.data) = ""
  · rw [if_pos h]
    have hnil : pyStrip raw.data = [] := by
      have := congrArg String.data h
      simpa using this
    rw [hnil]
    rfl
  · rw [if_neg h]
    exact hfold _ []

lemma exceptOk_levelOf (x : Sample) :
    exceptOk (levelOf x) = (RAIN_LEVEL_MAP x.cat).isSome := by
  unfold levelOf
  cases h : RAIN_LEVEL_MAP x.cat <;> simp [exceptOk]

lemma mapE_cons_err {α β : Type} (f : α → Except String β) (x : α) (xs : List α) (e : String)
    (hf : f x = Except.error e) : mapE f (x :: xs) = Except.error e := by
  simp [mapE, hf]

lemma mapE_cons_ok_err {α β : Type} (f : α → Except String β) (x : α) (xs : List α) (y : β)
    (e : String) (hf : f x = Except.ok y) (hm : mapE f xs = Except.error e) :
    mapE f (x :: xs) = Except.error e := by
  simp [mapE, hf, hm]

lemma mapE_cons_ok_ok {α β : Type} (f : α → Except String β) (x : α) (xs : List α) (y : β)
    (ys : List β) (hf : f x = Except.ok y) (hm : mapE f xs = Except.ok ys) :
    mapE f (x :: xs) = Except.ok (y :: ys) := by
  simp [mapE, hf, hm]

lemma mapE_ok_iff {α β : Type} (f : α → Except String β) :
    ∀ l : List α, exceptOk (mapE f l) = true ↔ ∀ x ∈ l, exceptOk (f x) = true := by
  intro l
  induction l with
  | nil => simp [mapE, exceptOk]
  | cons x xs ih =>
      rw [List.forall_mem_cons]
      cases hf : f x with
      | error e =>
          rw [mapE_cons_err f x xs e hf]
          simp [exceptOk, hf]
      | ok y =>
          cases hm : mapE f xs with
          | error e =>
              rw [mapE_cons_ok_err f x xs y e hf hm]
              constructor
              · intro h; exact absurd h (by simp [exceptOk])
              · intro h
                have h2 := ih.mpr h.2
                rw [hm] at h2
                exact absurd h2 (by simp [exceptOk])
          | ok ys =>
              rw [mapE_cons_ok_ok f x xs y ys hf hm]
              constructor
              · intro _
                refine ⟨by simp [exceptOk, hf], ih.mp ?_⟩
                rw [hm]; rfl
              · intro _; rfl

lemma mapE_error {α β : Type} (f : α → Except String β) :
    ∀ (l : List α) (e : String), mapE f l = Except.error e → ∃ x ∈ l, f x = Except.error e := by
  intro l
  induction l with
  | nil => intro e h; simp [mapE] at h
  | cons x xs ih =>
      intro e h
      cases hf : f x with
      | error e2 =>
          rw [mapE_cons_err f x xs e2 hf] at h
          injection h with he
          exact ⟨x, List.mem_cons_self x xs, by rw [hf, he]⟩
      | ok y =>
          cases hm : mapE f xs with
          | error e2 =>
              rw [mapE_cons_ok_err f x xs y e2 hf hm] at h
              injection h with he
              obtain ⟨z, hz, hfz⟩ := ih e2 hm
              exact ⟨z, List.mem_cons_of_mem x hz, by rw [hfz, he]⟩
          | ok ys =>
              rw [mapE_cons_ok_ok f x xs y ys hf hm] at h
              exact absurd h (by simp)

lemma mapE_ok_length {α β : Type} (f : α → Except String β) :
    ∀ (l : List α) (ys : List β), mapE f l = Except.ok ys → ys.length = l.length := by
  intro l
  induction l with
  | nil =>
      intro ys h
      simp only [mapE] at h
      injection h with h2
      simp [← h2]
  | cons x xs ih =>
      intro ys h
      cases hf : f x with
      | error e => rw [mapE_cons_err f x xs e hf] at h; exact absurd h (by simp)
      | ok y =>
          cases hm : mapE f xs with
          | error e =>
              rw [mapE_cons_ok_err f x xs y e hf hm] at h
              exact absurd h (by simp)
          | ok zs =>
              rw [mapE_cons_ok_ok f x xs y zs hf hm] at h
              injection h with h2
              rw [← h2]
              simp [ih zs hm]

lemma mapE_levelOf_ok :
    ∀ (l : List Sample) (ys : List ℚ), mapE levelOf l = Except.ok ys →
      ys = l.map levelD ∧ ∀ x ∈ l, (RAIN_LEVEL_MAP x.cat).isSome = true := by
  intro l
  induction l with
  | nil =>
      intro ys h
      simp only [mapE] at h
      injection h with h2
      simp [← h2]
  | cons x xs ih =>
      intro ys h
      cases hr : RAIN_LEVEL_MAP x.cat with
      | none =>
          have hfx : levelOf x = Except.error "UnknownIntensityCategory" := by
            simp [levelOf, hr]
          rw [mapE_cons_err levelOf x xs _ hfx] at h
          exact absurd h (by simp)
      | some v =>
          have hfx : levelOf x = Except.ok v := by simp [levelOf, hr]
          cases hm : mapE levelOf xs with
          | error e =>
              rw [mapE_cons_ok_err levelOf x xs v e hfx hm] at h
              exact absurd h (by simp)
          | ok zs =>
              rw [mapE_cons_ok_ok levelOf x xs v zs hfx hm] at h
              injection h with h2
              obtain ⟨h3, h4⟩ := ih zs hm
              constructor
              · rw [← h2, h3, List.map_cons]
                simp [levelD, hr]
              · intro z hz
                rcases List.mem_cons.mp hz with rfl | hz
                · simp [hr]
                · exact h4 z hz

lemma segmentGo_join : ∀ (l buf : List Sample), (segmentGo buf l).flatten = buf ++ l := by
  intro l
  induction l with
  | nil =>
      intro buf
      by_cases h : buf = [] <;> simp [segmentGo, h]
  | cons s rest ih =>
      intro buf
      by_cases h : s.cat = "雨停"
      · simp [segmentGo, h, ih]
      · simp [segmentGo, h, ih]

lemma segmentGo_ne_nil : ∀ (l buf : List Sample), ∀ ev ∈ segmentGo buf l, ev ≠ [] := by
  intro l
  induction l with
  | nil =>
      intro buf ev hev
      by_cases h : buf = []
      · simp [segmentGo, h] at hev
      · simp [segmentGo, h] at hev
        rw [hev]; exact h
  | cons s rest ih =>
      intro buf ev hev
      by_cases h : s.cat = "雨停"
      · simp [segmentGo, h] at hev
        rcases hev with rfl | hev
        · simp
        · exact ih [] ev hev
      · simp [segmentGo, h] at hev
        exact ih (buf ++ [s]) ev hev

lemma segmentGo_dropLast :
    ∀ (l buf : List Sample), (∀ x ∈ buf, x.cat ≠ "雨停") →
      ∀ ev ∈ segmentGo buf l, ∀ x ∈ ev.dropLast, x.cat ≠ "雨停" := by
  intro l
  induction l with
  | nil =>
      intro buf hbuf ev hev x hx
      by_cases h : buf = []
      · simp [segmentGo, h] at hev
      · simp [segmentGo, h] at hev
        subst hev
        exact hbuf x ((List.dropLast_sublist ev).subset hx)
  | cons s rest ih =>
      intro buf hbuf ev hev x hx
      by_cases h : s.cat = "雨停"
      · simp [segmentGo, h] at hev
        rcases hev with rfl | hev
        · rw [List.dropLast_concat] at hx
          exact hbuf x hx
        · exact ih [] (by simp) ev hev x hx
      · simp [segmentGo, h] at hev
        refine ih (buf ++ [s]) ?_ ev hev x hx
        intro z hz
        rcases List.mem_append.mp hz with hz | hz
        · exact hbuf z hz
        · simp at hz; rw [hz]; exact h

lemma pyMax_cons (x y : ℚ) (ys : List ℚ) : pyMax x (y :: ys) = pyMax (max x y) ys := rfl

lemma pyMax_mem : ∀ (xs : List ℚ) (x : ℚ), pyMax x xs = x ∨ pyMax x xs ∈ xs := by
  intro xs
  induction xs with
  | nil => intro x; left; rfl
  | cons y ys ih =>
      intro x
      rw [pyMax_cons]
      rcases ih (max x y) with h | h
      · rcases max_choice x y with hm | hm
        · left; rw [h, hm]
        · right; rw [h, hm]; exact List.mem_cons_self y ys
      · right; exact List.mem_cons_of_mem y h

lemma le_pyMax_self : ∀ (xs : List ℚ) (x : ℚ), x ≤ pyMax x xs := by
  intro xs
  induction xs with
  | nil => intro x; exact le_refl x
  | cons y ys ih =>
      intro x
      rw [pyMax_cons]
      exact le_trans (le_max_left x y) (ih (max x y))

lemma le_pyMax_of_mem : ∀ (xs : List ℚ) (x y : ℚ), y ∈ x :: xs → y ≤ pyMax x xs := by
  intro xs
  induction xs with
  | nil =>
      intro x y h
      simp at h
      rw [h]
      exact le_refl x
  | cons z zs ih =>
      intro x y h
      rw [pyMax_cons]
      rcases List.mem_cons.mp h with rfl | h2
      · exact le_trans (le_max_left y z) (le_pyMax_self zs _)
      · rcases List.mem_cons.mp h2 with rfl | h3
        · exact le_trans (le_max_right x y) (le_pyMax_self zs _)
        · exact ih (max x z) y (List.mem_cons_of_mem _ h3)

lemma pyIndex_lt : ∀ (l : List ℚ) (x : ℚ), x ∈ l → pyIndex x l < l.length := by
  intro l
  induction l with
  | nil => intro x h; simp at h
  | cons y ys ih =>
      intro x h
      by_cases hy : y = x
      · simp [pyIndex, hy]
      · rw [pyIndex, if_neg hy]
        have hx : x ∈ ys := by
          rcases List.mem_cons.mp h with rfl | h2
          · exact absurd rfl hy
          · exact h2
        simpa using Nat.succ_lt_succ (ih x hx)

lemma pyIndex_getElem : ∀ (l : List ℚ) (x : ℚ), x ∈ l →
    ∀ hlt : pyIndex x l < l.length, l[pyIndex x l] = x := by
  intro l
  induction l with
  | nil => intro x h; simp at h
  | cons y ys ih =>
      intro x h hlt
      by_cases hy : y = x
      · simp [pyIndex, hy]
      · have hx : x ∈ ys := by
          rcases List.mem_cons.mp h with rfl | h2
          · exact absurd rfl hy
          · exact h2
        simp only [pyIndex, if_neg hy] at hlt ⊢
        simpa using ih x hx (by simpa using Nat.lt_of_succ_lt_succ hlt)

lemma pyIndex_first : ∀ (l : List ℚ) (x : ℚ) (j : ℕ) (hj : j < l.length),
    j < pyIndex x l → l[j] ≠ x := by
  intro l
  induction l with
  | nil => intro x j hj; simp at hj
  | cons y ys ih =>
      intro x j hj hlt
      by_cases hy : y = x
      · rw [pyIndex, if_pos hy] at hlt
        exact absurd hlt (Nat.not_lt_zero j)
      · rw [pyIndex, if_neg hy] at hlt
        cases j with
        | zero => simpa using hy
        | succ j2 =>
            simp only [List.getElem_cons_succ]
            exact ih x j2 (by simpa using Nat.lt_of_succ_lt_succ hj) (Nat.lt_of_succ_lt_succ hlt)

lemma getD_of_lt {α : Type} :
    ∀ (l : List α) (i : ℕ) (d : α) (h : i < l.length), l.getD i d = l[i] := by
  intro l
  induction l with
  | nil => intro i d h; simp at h
  | cons y ys ih =>
      intro i d h
      cases i with
      | zero => rfl
      | succ i2 =>
          simp only [List.getD_cons_succ, List.getElem_cons_succ]
          exact ih i2 d (by simpa using Nat.lt_of_succ_lt_succ h)

lemma format_event_okEq (r0 : Sample) (rs : List Sample) :
    exceptOk (format_event (r0 :: rs)) = exceptOk (mapE levelOf (r0 :: rs)) := by
  cases hm : mapE levelOf (r0 :: rs) with
  | error e => simp only [format_event, hm]; rfl
  | ok strengths =>
      have hl := mapE_ok_length levelOf (r0 :: rs) strengths hm
      cases strengths with
      | nil => simp at hl
      | cons s0 ss => simp only [format_event, hm]; rfl

lemma format_event_ok_iff (r0 : Sample) (rs : List Sample) :
    exceptOk (format_event (r0 :: rs)) = true
      ↔ ∀ x ∈ r0 :: rs, (RAIN_LEVEL_MAP x.cat).isSome = true := by
  rw [format_event_okEq, mapE_ok_iff]
  simp only [exceptOk_levelOf]

lemma format_event_error_name (r0 : Sample) (rs : List Sample) (e : String)
    (h : format_event (r0 :: rs) = Except.error e) : e = "UnknownIntensityCategory" := by
  cases hm : mapE levelOf (r0 :: rs) with
  | error e2 =>
      obtain ⟨x, hx, hfx⟩ := mapE_error levelOf (r0 :: rs) e2 hm
      have he2 : e2 = "UnknownIntensityCategory" := by
        cases hr : RAIN_LEVEL_MAP x.cat with
        | some v => simp [levelOf, hr] at hfx
        | none =>
            simp [levelOf, hr] at hfx
            exact hfx.symm
      have hfe : format_event (r0 :: rs) = Except.error e2 := by
        simp only [format_event, hm]
      rw [hfe] at h
      injection h with h4
      rw [← h4, he2]
  | ok strengths =>
      have hl := mapE_ok_length levelOf (r0 :: rs) strengths hm
      cases strengths with
      | nil => simp at hl
      | cons s0 ss =>
          simp only [format_event, hm] at h
          exact absurd h (by simp)

lemma visFields_cavok (ts : List String) (h : hasCavok ts = true) :
    visibilityFields ts = (none, some "CAVOK - 天气晴好") := by
  simp [visibilityFields, h]

lemma visFields_9999 (ts : List String) (h : hasCavok ts = false)
    (h9 : ts.contains "9999" = true) :
    visibilityFields ts = (some 9999, some "10公里或以上") := by
  have h9m : "9999" ∈ ts := by simpa using h9
  simp [visibilityFields, h, h9m]

lemma visFields_none (ts : List String) (h : hasCavok ts = false)
    (h9 : ts.contains "9999" = false) (hf : findVisToken ts = none) :
    visibilityFields ts = (none, none) := by
  have h9m : "9999" ∉ ts := by simpa using h9
  simp [visibilityFields, h, h9m, hf]

lemma visFields_p1_hit (ts : List String) (w : Nat) (h : hasCavok ts = false)
    (h9 : ts.contains "9999" = false) (hf : findVisToken ts = some w)
    (h1 : w ≠ 1010) (h2 : w ≠ 1013) :
    visibilityFields ts = (some w, some (visDescOf w)) := by
  have h9m : "9999" ∉ ts := by simpa using h9
  simp [visibilityFields, h, h9m, hf, h1, h2]

lemma visFields_p1_miss (ts : List String) (w : Nat) (h : hasCavok ts = false)
    (h9 : ts.contains "9999" = false) (hf : findVisToken ts = some w)
    (hw : w = 1010 ∨ w = 1013) :
    visibilityFields ts = (none, none) := by
  have h9m : "9999" ∉ ts := by simpa using h9
  rcases hw with rfl | rfl <;> simp [visibilityFields, h, h9m, hf]

lemma visFields_desc (ts : List String) (v : Nat) (h : (visibilityFields ts).1 = some v) :
    (visibilityFields ts).2 = some (visDescOf v) := by
  cases hc : hasCavok ts with
  | true => rw [visFields_cavok ts hc] at h; exact absurd h (by simp)
  | false =>
      cases h9 : ts.contains "9999" with
      | true =>
          rw [visFields_9999 ts hc h9] at h ⊢
          have hv : 9999 = v := by simpa using h
          rw [← hv]
          rfl
      | false =>
          cases hf : findVisToken ts with
          | none =>
              rw [visFields_none ts hc h9 hf] at h
              exact absurd h (by simp)
          | some w =>
              by_cases h1 : w = 1010
              · rw [visFields_p1_miss ts w hc h9 hf (Or.inl h1)] at h
                exact absurd h (by simp)
              · by_cases h2 : w = 1013
                · rw [visFields_p1_miss ts w hc h9 hf (Or.inr h2)] at h
                  exact absurd h (by simp)
                · rw [visFields_p1_hit ts w hc h9 hf h1 h2] at h ⊢
                  have hv : w = v := by simpa using h
                  rw [← hv]

lemma visFields_fst_ne (ts : List String) :
    (visibilityFields ts).1 ≠ some 1010 ∧ (visibilityFields ts).1 ≠ some 1013 := by
  cases hc : hasCavok ts with
  | true => rw [visFields_cavok ts hc]; exact ⟨by simp, by simp⟩
  | false =>
      cases h9 : ts.contains "9999" with
      | true => rw [visFields_9999 ts hc h9]; exact ⟨by simp, by simp⟩
      | false =>
          cases hf : findVisToken ts with
          | none => rw [visFields_none ts hc h9 hf]; exact ⟨by simp, by simp⟩
          | some w =>
              by_cases h1 : w = 1010
              · rw [visFields_p1_miss ts w hc h9 hf (Or.inl h1)]
                exact ⟨by simp, by simp⟩
              · by_cases h2 : w = 1013
                · rw [visFields_p1_miss ts w hc h9 hf (Or.inr h2)]
                  exact ⟨by simp, by simp⟩
                · rw [visFields_p1_hit ts w hc h9 hf h1 h2]
                  exact ⟨by simpa using h1, by simpa using h2⟩

lemma visFields_excluded (ts : List String) (hc : hasCavok ts = false)
    (h9 : ts.contains "9999" = false)
    (hf : findVisToken ts = some 1010 ∨ findVisToken ts = some 1013) :
    visibilityFields ts = (none, none) := by
  rcases hf with hf | hf
  · exact visFields_p1_miss ts 1010 hc h9 hf (Or.inl rfl)
  · exact visFields_p1_miss ts 1013 hc h9 hf (Or.inr rfl)

lemma windUnitPart_unit (d : Option Nat) (s : Nat) (g : Option Nat) :
    ∀ (cs : List Char) (w : WindTok), windUnitPart d s g cs = some w →
      w.unit = "KT" ∨ w.unit = "MPS" := by
  intro cs w h
  unfold windUnitPart at h
  split at h
  · injection h with h2; rw [← h2]; left; rfl
  · injection h with h2; rw [← h2]; right; rfl
  · exact absurd h (by simp)

lemma windGustPart_unit (d : Option Nat) (s : Nat) :
    ∀ (cs : List Char) (w : WindTok), windGustPart d s cs = some w →
      w.unit = "KT" ∨ w.unit = "MPS" := by
  intro cs w h
  unfold windGustPart at h
  split at h
  · split at h
    · exact windUnitPart_unit _ _ _ _ _ h
    · exact absurd h (by simp)
  · exact windUnitPart_unit _ _ _ _ _ h

lemma windSpeedPart_unit (d : Option Nat) :
    ∀ (cs : List Char) (w : WindTok), windSpeedPart d cs = some w →
      w.unit = "KT" ∨ w.unit = "MPS" := by
  intro cs w h
  unfold windSpeedPart at h
  split at h
  · exact windGustPart_unit _ _ _ _ h
  · exact absurd h (by simp)

lemma parseWindToken_unit :
    ∀ (t : String) (w : WindTok), parseWindToken t = some w →
      w.unit = "KT" ∨ w.unit = "MPS" := by
  intro t w h
  unfold parseWindToken at h
  split at h
  · exact windSpeedPart_unit _ _ _ h
  · split at h
    · exact windGustPart_unit _ _ _ _ h
    · exact absurd h (by simp)

lemma peak_spec (r0 : Sample) (rs : List Sample) :
    ∃ i, ∃ hi : i < (r0 :: rs).length,
      ((r0 :: rs)[i]).cat
          = ((r0 :: rs).map Sample.cat).getD
              (pyIndex (pyMax (levelD r0) (rs.map levelD)) (levelD r0 :: rs.map levelD)) ""
      ∧ (∀ j (hj : j < (r0 :: rs).length), levelD ((r0 :: rs)[j]) ≤ levelD ((r0 :: rs)[i]))
      ∧ (∀ j (hj : j < (r0 :: rs).length), j < i →
          levelD ((r0 :: rs)[j]) < levelD ((r0 :: rs)[i])) := by
  have hmem : pyMax (levelD r0) (rs.map levelD) ∈ levelD r0 :: rs.map levelD := by
    rcases pyMax_mem (rs.map levelD) (levelD r0) with h1 | h1
    · rw [h1]; exact List.mem_cons_self _ _
    · exact List.mem_cons_of_mem _ h1
  have hidxlt : pyIndex (pyMax (levelD r0) (rs.map levelD)) (levelD r0 :: rs.map levelD)
      < (levelD r0 :: rs.map levelD).length := pyIndex_lt _ _ hmem
  have hlenL : (levelD r0 :: rs.map levelD).length = (r0 :: rs).length := by simp
  have hget : (levelD r0 :: rs.map levelD)[pyIndex (pyMax (levelD r0) (rs.map levelD))
        (levelD r0 :: rs.map levelD)]
      = pyMax (levelD r0) (rs.map levelD) := pyIndex_getElem _ _ hmem hidxlt
  have hjth : ∀ j (hj : j < (r0 :: rs).length) (hj2 : j < (levelD r0 :: rs.map levelD).length),
      (levelD r0 :: rs.map levelD)[j] = levelD ((r0 :: rs)[j]) := by
    intro j hj hj2
    have h3 : j < ((r0 :: rs).map levelD).length := by simpa using hj2
    calc (levelD r0 :: rs.map levelD)[j]
        = ((r0 :: rs).map levelD)[j] := rfl
      _ = levelD ((r0 :: rs)[j]) := List.getElem_map levelD
  have hmemj : ∀ j (hj2 : j < (levelD r0 :: rs.map levelD).length),
      (levelD r0 :: rs.map levelD)[j] ∈ levelD r0 :: rs.map levelD := by
    intro j hj2
    apply List.getElem_mem
  refine ⟨pyIndex (pyMax (levelD r0) (rs.map levelD)) (levelD r0 :: rs.map levelD),
    by omega, ?_, ?_, ?_⟩
  · have hidx2 : pyIndex (pyMax (levelD r0) (rs.map levelD)) (levelD r0 :: rs.map levelD)
        < ((r0 :: rs).map Sample.cat).length := by
      simp only [List.length_map]
      omega
    rw [getD_of_lt _ _ _ hidx2]
    exact (List.getElem_map Sample.cat).symm
  · intro j hj
    have hj2 : j < (levelD r0 :: rs.map levelD).length := by omega
    rw [← hjth j hj hj2, ← hjth _ (by omega) hidxlt, hget]
    exact le_pyMax_of_mem _ _ _ (hmemj j hj2)
  · intro j hj hlt
    have hj2 : j < (levelD r0 :: rs.map levelD).length := by omega
    rw [← hjth j hj hj2, ← hjth _ (by omega) hidxlt, hget]
    have hne : (levelD r0 :: rs.map levelD)[j] ≠ pyMax (levelD r0) (rs.map levelD) :=
      pyIndex_first _ _ j hj2 hlt
    have hle : (levelD r0 :: rs.map levelD)[j] ≤ pyMax (levelD r0) (rs.map levelD) :=
      le_pyMax_of_mem _ _ _ (hmemj j hj2)
    exact lt_of_le_of_ne hle hne

/-! ## Claim theorems -/

/-- Claim C1, corrected.  The original claim says a CAVOK report gets
visibility exactly 9999; the code leaves the numeric visibility unset under
CAVOK.  Amended: for every report containing a standalone CAVOK token the
decoder sets the cavok flag and the fixed CAVOK description, leaves the
numeric visibility unset, and performs no further visibility extraction
regardless of any other 4-digit tokens present. -/
theorem c1_cavok_fixed_description (ts : List String) (h : hasCavok ts = true) :
    (parse_metar ts).cavok = true
    ∧ (parse_metar ts).visibility = none
    ∧ (parse_metar ts).visibility_description = some "CAVOK - 天气晴好" := by
  refine ⟨h, ?_, ?_⟩
  · show (visibilityFields ts).1 = none
    rw [visFields_cavok ts h]
  · show (visibilityFields ts).2 = some "CAVOK - 天气晴好"
    rw [visFields_cavok ts h]

/-- Claim C1 counterexample: on the repository's own CAVOK test report the
decoded visibility is unset, not 9999 as the claim states. -/
theorem c1_counterexample :
    (parse_metar ["METAR", "VVCS", "211500Z", "VRB03KT", "CAVOK", "30/22", "Q1012"]).visibility
        = none
    ∧ (parse_metar ["METAR", "VVCS", "211500Z", "VRB03KT", "CAVOK", "30/22", "Q1012"]).visibility
        ≠ some 9999 := ⟨rfl, by decide⟩

/-- Claim C1 witness. -/
theorem c1_witness :
    (parse_metar ["VRB03KT", "CAVOK", "30/22"]).cavok = true
    ∧ (parse_metar ["VRB03KT", "CAVOK", "30/22"]).visibility = none
    ∧ (parse_metar ["VRB03KT", "CAVOK", "30/22"]).visibility_description
        = some "CAVOK - 天气晴好" :=
  c1_cavok_fixed_description ["VRB03KT", "CAVOK", "30/22"] rfl

/-- Claim C2, corrected.  The original claim says the clear-sky pseudo layer
and explicit coded layers are both appended when both are textually present;
in the code the two branches are an if/else, so a clear-sky token suppresses
all coded layers.  Amended: when a clear-sky token is present the cloud list
is exactly the synthetic zero-height pseudo layer; coded layers are recorded
only when no clear-sky token is present. -/
theorem c2_clear_sky_exclusive (ts : List String) :
    (hasClearSky ts = true → (parse_metar ts).clouds = [skcCloud])
    ∧ (hasClearSky ts = false → (parse_metar ts).clouds = ts.filterMap parseCloud) := by
  constructor
  · intro h
    show cloudsOf ts = [skcCloud]
    unfold cloudsOf
    rw [if_pos h]
  · intro h
    show cloudsOf ts = ts.filterMap parseCloud
    unfold cloudsOf
    rw [if_neg (by simp [h])]

/-- Claim C2 counterexample: with both SKC and FEW020 present, the decoded
cloud list holds only the pseudo layer and the coded FEW layer is absent. -/
theorem c2_counterexample :
    hasClearSky ["SKC", "FEW020"] = true
    ∧ parseCloud "FEW020" = some ⟨"FEW", 610, some 2000, "少云(1-2/8)", none⟩
    ∧ (parse_metar ["SKC", "FEW020"]).clouds = [skcCloud]
    ∧ (⟨"FEW", 610, some 2000, "少云(1-2/8)", none⟩ : Cloud)
        ∉ (parse_metar ["SKC", "FEW020"]).clouds := by
  refine ⟨rfl, rfl, rfl, ?_⟩
  decide

/-- Claim C2 witness. -/
theorem c2_witness : (parse_metar ["NSC"]).clouds = [skcCloud] :=
  (c2_clear_sky_exclusive ["NSC"]).1 rfl

/-- Claim C3, corrected.  The original claim says the batch splitter splits
on both '=' and blank-line boundaries and strips a leading receipt-stamp
prefix; the code splits on '=' only and keeps receipt stamps.  Amended: the
splitter splits on '=' only, collapses each segment's whitespace and
newlines to single spaces, drops empty segments, preserves order without
deduplication, never fails, and yields the empty sequence for an empty or
whitespace-only input; blank lines do not separate reports and receipt-stamp
prefixes are retained. -/
theorem c3_splitter_contract (raw : String) :
    splitReports raw = (splitCharOn '=' (pyStrip raw.data)).filterMap segOut
    ∧ (pyStrip raw.data = [] → splitReports raw = [])
    ∧ splitReports "A\n\nB" = ["A B"] := by
  refine ⟨splitReports_eq raw, ?_, rfl⟩
  intro h
  rw [splitReports_eq raw, h]
  rfl

/-- Claim C3 counterexample: on a block with a receipt stamp and a blank-line
boundary, the code returns one segment with the stamp retained, while the
splitter the claim describes returns two stripped reports. -/
theorem c3_counterexample :
    splitReports "Rx 210326Z METAR VVCS\n\nMETAR VVTS="
        = ["Rx 210326Z METAR VVCS METAR VVTS"]
    ∧ specSplitReports "Rx 210326Z METAR VVCS\n\nMETAR VVTS="
        = ["METAR VVCS", "METAR VVTS"] := ⟨rfl, rfl⟩

/-- Claim C3 witness. -/
theorem c3_witness : splitReports " \n  " = [] :=
  (c3_splitter_contract " \n  ").2.1 rfl

/-- Claim C4, corrected.  The original claim says the wind unit suffix may be
KT, MPS or KMH with KMH converted by a 0.54 factor; the code's wind pattern
accepts only KT and MPS, so a KMH token is not recognized at all.  Amended:
the unit suffix is one of KT or MPS; MPS speeds are converted to knots by
1.944 rounded to the nearest integer (10012MPS gives 23); a 10012KMH token
leaves the wind fields unset. -/
theorem c4_wind_units :
    (∀ (t : String) (w : WindTok), parseWindToken t = some w →
        w.unit = "KT" ∨ w.unit = "MPS")
    ∧ (∀ s : Nat, 1000 * (mpsToKt s : ℤ) - 1944 * (s : ℤ) ≤ 500
        ∧ 1944 * (s : ℤ) - 1000 * (mpsToKt s : ℤ) < 500)
    ∧ (parse_metar ["10012MPS"]).wind_speed = some 23
    ∧ (parse_metar ["10012KMH"]).wind_speed = none := by
  refine ⟨parseWindToken_unit, ?_, rfl, rfl⟩
  intro s
  unfold mpsToKt
  constructor <;> omega

/-- Claim C4 counterexample: the token 10012KMH yields no wind speed at all,
not the claimed 6 knots. -/
theorem c4_counterexample :
    (parse_metar ["10012KMH"]).wind_speed = none
    ∧ (parse_metar ["10012KMH"]).wind_speed ≠ some 6 := ⟨rfl, by decide⟩

/-- Claim C4 witness. -/
theorem c4_witness :
    (⟨some 270, 15, none, "KT"⟩ : WindTok).unit = "KT"
    ∨ (⟨some 270, 15, none, "KT"⟩ : WindTok).unit = "MPS" :=
  c4_wind_units.1 "27015KT" ⟨some 270, 15, none, "KT"⟩ rfl

/-- Claim C5, corrected.  The original claim lists seven description buckets
with thresholds 9999/8000/5000/3000/1500/800; the code has five buckets with
thresholds 9999/5000/3000/1000.  Amended: whenever the decoder records a
visibility value its description is chosen by: 9999 maps to the fixed
10-km-or-more label, values of at least 5000 to the good label, at least
3000 to the moderate label, at least 1000 to the poor label, and anything
lower to the very-poor label. -/
theorem c5_visibility_buckets :
    (∀ (ts : List String) (v : Nat), (parse_metar ts).visibility = some v →
        (parse_metar ts).visibility_description = some (visDescOf v))
    ∧ visDescOf 9999 = "10公里或以上"
    ∧ (∀ v, v ≠ 9999 → 5000 ≤ v → visDescOf v = "良好")
    ∧ (∀ v, v < 5000 → 3000 ≤ v → visDescOf v = "中等")
    ∧ (∀ v, v < 3000 → 1000 ≤ v → visDescOf v = "较差")
    ∧ (∀ v, v < 1000 → visDescOf v = "很差") := by
  refine ⟨?_, rfl, ?_, ?_, ?_, ?_⟩
  · intro ts v h
    exact visFields_desc ts v h
  · intro v h1 h2
    unfold visDescOf
    rw [if_neg h1, if_pos h2]
  · intro v h1 h2
    unfold visDescOf
    rw [if_neg (by omega), if_neg (by omega), if_pos h2]
  · intro v h1 h2
    unfold visDescOf
    rw [if_neg (by omega), if_neg (by omega), if_neg (by omega), if_pos h2]
  · intro v h1
    unfold visDescOf
    rw [if_neg (by omega), if_neg (by omega), if_neg (by omega), if_neg (by omega)]

/-- Claim C5 counterexample: no injective labelling of the seven claimed
buckets matches the code's description function — the code assigns the same
label to 8000 and to 5000, which the claim places in distinct buckets. -/
theorem c5_counterexample : ¬ c5Claim := by
  rintro ⟨L, hL, h⟩
  have h8 := h 8000
  have h5 := h 5000
  rw [show specVisBucket 8000 = VisBucket.veryGood from rfl] at h8
  rw [show specVisBucket 5000 = VisBucket.good from rfl] at h5
  have hgg : L VisBucket.veryGood = L VisBucket.good := by
    rw [← h8, ← h5]
    decide
  exact absurd (hL hgg) (by decide)

/-- Claim C5 witness. -/
theorem c5_witness :
    (parse_metar ["28015KT", "3500", "FEW020"]).visibility_description
        = some (visDescOf 3500) :=
  c5_visibility_buckets.1 ["28015KT", "3500", "FEW020"] 3500 rfl

/-- Claim C6, confirmed.  The segmenter appends every sample to the open
buffer (the segments flatten back to the input, in order), only a 雨停
(stopped) sample can close an episode (it is the only category allowed in a
terminal position: all non-terminal members are not 雨停), a trailing
non-empty buffer is emitted as a final open-ended episode (all episodes are
non-empty), and the concrete 10:00 light / 10:20 heavy / 10:40 stopped
stream yields exactly one event spanning 600 to 640 minutes with duration
40, sequence light-heavy-stopped and peak heavy. -/
theorem c6_segmenter :
    (∀ l : List Sample, (segmentRain l).flatten = l)
    ∧ (∀ l : List Sample, ∀ ev ∈ segmentRain l,
        ev ≠ [] ∧ ∀ x ∈ ev.dropLast, x.cat ≠ "雨停")
    ∧ analyze_rain_events [⟨600, "小雨"⟩, ⟨620, "大雨"⟩, ⟨640, "雨停"⟩]
        = Except.ok [⟨600, 640, 40, ["小雨", "大雨", "雨停"], "大雨"⟩] := by
  refine ⟨?_, ?_, rfl⟩
  · intro l
    rw [segmentRain, segmentGo_join l []]
    rfl
  · intro l ev hev
    exact ⟨segmentGo_ne_nil l [] ev hev, segmentGo_dropLast l [] (by simp) ev hev⟩

/-- Claim C6 witness. -/
theorem c6_witness :
    (segmentRain [⟨600, "小雨"⟩, ⟨640, "雨停"⟩]).flatten
        = [⟨600, "小雨"⟩, ⟨640, "雨停"⟩]
    ∧ ([⟨600, "小雨"⟩, ⟨640, "雨停"⟩] : List Sample) ≠ []
    ∧ (⟨600, "小雨"⟩ : Sample).cat ≠ "雨停" := by
  refine ⟨c6_segmenter.1 [⟨600, "小雨"⟩, ⟨640, "雨停"⟩], ?_, ?_⟩
  · exact (c6_segmenter.2.1 [⟨600, "小雨"⟩, ⟨640, "雨停"⟩]
      [⟨600, "小雨"⟩, ⟨640, "雨停"⟩] (by decide)).1
  · exact (c6_segmenter.2.1 [⟨600, "小雨"⟩, ⟨640, "雨停"⟩]
      [⟨600, "小雨"⟩, ⟨640, "雨停"⟩] (by decide)).2 ⟨600, "小雨"⟩ (by decide)

/-- Claim C7, confirmed.  The severity scale is exactly stopped 0, drizzle
one half, light 1, moderate 2, heavy 3, thunder-shower three-and-a-half,
torrential 4 (strictly increasing in that order), and for every successfully
formatted episode the reported peak is the member of maximal severity with
ties broken by the first occurrence in chronological order. -/
theorem c7_severity_scale_peak (records : List Sample) (ev : RainEvent)
    (h : format_event records = Except.ok ev) :
    (RAIN_LEVEL_MAP "雨停" = some 0 ∧ RAIN_LEVEL_MAP "毛毛雨" = some (1/2)
      ∧ RAIN_LEVEL_MAP "小雨" = some 1 ∧ RAIN_LEVEL_MAP "中雨" = some 2
      ∧ RAIN_LEVEL_MAP "大雨" = some 3 ∧ RAIN_LEVEL_MAP "雷阵雨" = some (7/2)
      ∧ RAIN_LEVEL_MAP "暴雨" = some 4
      ∧ (0 : ℚ) < 1/2 ∧ (1/2 : ℚ) < 1 ∧ (1 : ℚ) < 2 ∧ (2 : ℚ) < 3
      ∧ (3 : ℚ) < 7/2 ∧ (7/2 : ℚ) < 4)
    ∧ ∃ i, ∃ hi : i < records.length,
        (records[i]).cat = ev.peak
        ∧ (∀ j (hj : j < records.length), levelD records[j] ≤ levelD records[i])
        ∧ (∀ j (hj : j < records.length), j < i →
            levelD records[j] < levelD records[i]) := by
  refine ⟨⟨rfl, rfl, rfl, rfl, rfl, rfl, rfl, by norm_num, by norm_num, by norm_num,
    by norm_num, by norm_num, by norm_num⟩, ?_⟩
  cases records with
  | nil => simp [format_event, mapE] at h
  | cons r0 rs =>
      cases hm : mapE levelOf (r0 :: rs) with
      | error e =>
          have hfe : format_event (r0 :: rs) = Except.error e := by
            simp only [format_event, hm]
          rw [hfe] at h
          exact absurd h (by simp)
      | ok strengths =>
          obtain ⟨hmap, hknown⟩ := mapE_levelOf_ok (r0 :: rs) strengths hm
          subst hmap
          rw [List.map_cons] at hm
          have hfe : format_event (r0 :: rs) = Except.ok
              { startT := r0.time
                endT := (rs.getLastD r0).time
                durationMin := (rs.getLastD r0).time - r0.time
                seq := (r0 :: rs).map Sample.cat
                peak := ((r0 :: rs).map Sample.cat).getD
                    (pyIndex (pyMax (levelD r0) (rs.map levelD))
                      (levelD r0 :: rs.map levelD)) "" } := by
            simp only [format_event, hm]
          rw [hfe] at h
          injection h with hev
          rw [← hev]
          exact peak_spec r0 rs

/-- Claim C7 witness. -/
theorem c7_witness :
    RAIN_LEVEL_MAP "雨停" = some 0
    ∧ ∃ i, ∃ hi : i < ([⟨600, "小雨"⟩, ⟨620, "大雨"⟩, ⟨640, "雨停"⟩] : List Sample).length,
        (([⟨600, "小雨"⟩, ⟨620, "大雨"⟩, ⟨640, "雨停"⟩] : List Sample)[i]).cat = "大雨" := by
  have h := c7_severity_scale_peak [⟨600, "小雨"⟩, ⟨620, "大雨"⟩, ⟨640, "雨停"⟩]
    ⟨600, 640, 40, ["小雨", "大雨", "雨停"], "大雨"⟩ rfl
  obtain ⟨i, hi, hpk, _, _⟩ := h.2
  exact ⟨h.1.1, i, hi, hpk⟩

/-- Claim C8, confirmed.  The pipeline fails exactly when some sample's
intensity category is outside the fixed scale: the analysis succeeds if and
only if every sample's category is in RAIN_LEVEL_MAP, and every failure
carries the UnknownIntensityCategory error. -/
theorem c8_unknown_category (samples : List Sample) :
    (exceptOk (analyze_rain_events samples) = true
      ↔ ∀ s ∈ samples, (RAIN_LEVEL_MAP s.cat).isSome = true)
    ∧ (∀ e, analyze_rain_events samples = Except.error e →
        e = "UnknownIntensityCategory") := by
  have hperm : ∀ x : Sample, x ∈ sortSamples samples ↔ x ∈ samples := by
    intro x
    exact (List.perm_insertionSort _ samples).mem_iff
  constructor
  · rw [analyze_rain_events, mapE_ok_iff]
    constructor
    · intro h s hs
      have hs2 : s ∈ sortSamples samples := (hperm s).mpr hs
      have hs3 : s ∈ (segmentRain (sortSamples samples)).flatten := by
        rw [segmentRain, segmentGo_join]
        simpa using hs2
      obtain ⟨ev, hev, hsev⟩ := List.mem_flatten.mp hs3
      have hne := segmentGo_ne_nil (sortSamples samples) [] ev hev
      cases ev with
      | nil => exact absurd rfl hne
      | cons e0 es =>
          exact (format_event_ok_iff e0 es).mp (h (e0 :: es) hev) s hsev
    · intro h ev hev
      have hne := segmentGo_ne_nil (sortSamples samples) [] ev hev
      cases ev with
      | nil => exact absurd rfl hne
      | cons e0 es =>
          rw [format_event_ok_iff]
          intro x hx
          have hx2 : x ∈ (segmentRain (sortSamples samples)).flatten :=
            List.mem_flatten.mpr ⟨e0 :: es, hev, hx⟩
          rw [segmentRain, segmentGo_join] at hx2
          exact h x ((hperm x).mp (by simpa using hx2))
  · intro e he
    obtain ⟨ev, hev, hfev⟩ := mapE_error format_event _ e he
    have hne := segmentGo_ne_nil (sortSamples samples) [] ev hev
    cases ev with
    | nil => exact absurd rfl hne
    | cons e0 es => exact format_event_error_name e0 es e hfev

/-- Claim C8 witness. -/
theorem c8_witness : exceptOk (analyze_rain_events [⟨600, "小雨"⟩]) = true :=
  (c8_unknown_category [⟨600, "小雨"⟩]).1.mpr (by decide)

/-- Claim C9, confirmed.  The decoded temperature is set exactly when the
dewpoint is set: both are captured from the single first matching TT/DD
token pair. -/
theorem c9_temp_dew_pair (ts : List String) :
    (parse_metar ts).temperature.isSome = (parse_metar ts).dewpoint.isSome := by
  show ((tempDew ts).map Prod.fst).isSome = ((tempDew ts).map Prod.snd).isSome
  cases tempDew ts <;> rfl

/-- Claim C10, corrected.  The original claim says a positional visibility
match of 1010 or 1013 leaves visibility and its description unset
unconditionally; the exclusion of those two values is real and they are
never recorded, but a standalone 9999 token elsewhere in the report still
sets visibility through the second pass.  Amended: the decoded visibility is
never 1010 or 1013, and when the positional match is 1010 or 1013 and no
standalone 9999 token occurs (and no CAVOK), both the visibility and its
description stay unset. -/
theorem c10_pressure_exclusion :
    (∀ ts : List String,
        (parse_metar ts).visibility ≠ some 1010 ∧ (parse_metar ts).visibility ≠ some 1013)
    ∧ (∀ ts : List String, hasCavok ts = false → ts.contains "9999" = false →
        (findVisToken ts = some 1010 ∨ findVisToken ts = some 1013) →
        (parse_metar ts).visibility = none
          ∧ (parse_metar ts).visibility_description = none) := by
  constructor
  · intro ts
    exact visFields_fst_ne ts
  · intro ts hc h9 hf
    have hv := visFields_excluded ts hc h9 hf
    constructor
    · show (visibilityFields ts).1 = none
      rw [hv]
    · show (visibilityFields ts).2 = none
      rw [hv]

/-- Claim C10 counterexample: the positional pass matches 1013 (excluded),
yet the report also contains a standalone 9999 token and the decoder records
visibility 9999 — the claim's "both unset" fails. -/
theorem c10_counterexample :
    hasCavok ["28015KT", "1013", "FEW020", "9999"] = false
    ∧ findVisToken ["28015KT", "1013", "FEW020", "9999"] = some 1013
    ∧ (parse_metar ["28015KT", "1013", "FEW020", "9999"]).visibility = some 9999
    ∧ (parse_metar ["28015KT", "1013", "FEW020", "9999"]).visibility_description
        = some "10公里或以上" := ⟨rfl, rfl, rfl, rfl⟩

/-- Claim C10 witness. -/
theorem c10_witness :
    (parse_metar ["28015KT", "1013", "FEW020"]).visibility = none
    ∧ (parse_metar ["28015KT", "1013", "FEW020"]).visibility_description = none :=
  c10_pressure_exclusion.2 ["28015KT", "1013", "FEW020"] rfl rfl (Or.inr rfl)

end Metar
